import Mathlib

/-!
Verification development for the waterCodeFlow watcher core
(src/watcher/core/src/watcher_core.cpp and its public header).

The C++ core is shallowly embedded: machine addresses and bytes are
natural numbers, the SPSC event queue is a list together with its fixed
capacity, the unordered_map registry is an association list, and the
outcomes of external effects (userfaultfd ioctls, the memory read done by
memcpy, the clock, the generated identifier) are explicit parameters of
the operations that perform them.  Every definition follows the source
line by line; placeholder bodies in the source (dequeueEvent,
slowPathLoop) are embedded as the placeholders they are.
-/

namespace Watcher

/-- Page size constant from the header (PAGE_SIZE = 4096). -/
def PAGE_SIZE : Nat := 4096

/-- Core lifecycle states, as in the WatcherCore::State enum. -/
inductive State where
  | UNINITIALIZED
  | INITIALIZED
  | RUNNING
  | PAUSED
  | STOPPED
  | ERROR
deriving DecidableEq, Repr

/-- Mutation depth specification (struct MutationDepth). -/
structure MutationDepth where
  full_page : Bool
  byte_range : Nat
deriving DecidableEq, Repr

/-- Minimal fast-path event (struct FastPathEvent); pointers are
addresses as naturals. -/
structure FastPathEvent where
  event_id : String
  ts_ns : Nat
  page_base : Nat
  fault_addr : Nat
  tid : Nat
  ip : Nat
deriving DecidableEq, Repr

/-- Full event after enrichment (struct EnrichedEvent). -/
structure EnrichedEvent where
  event_id : String
  ts_ns : Nat
  page_base : Nat
  fault_addr : Nat
  tid : Nat
  ip : Nat
  symbol : String
  file : String
  line : Nat
  pre_snapshot : List Nat
  post_snapshot : List Nat
  deltas : List (Nat × List Nat × List Nat)
  variable_ids : List String
  sql_context_id : String
deriving DecidableEq, Repr

/-- Variable registration metadata (struct VariableMetadata); the
registered_at time point is a natural clock value. -/
structure VariableMetadata where
  variable_id : String
  page_base : Nat
  page_size : Nat
  name : String
  flags : Nat
  mutation_depth : MutationDepth
  initial_snapshot : List Nat
  registered_at : Nat
deriving DecidableEq, Repr

/-- The bounded SPSC event queue (class EventQueue): the linked nodes are
a list, capacity_ is fixed at construction, size_ is the list length. -/
structure EventQueue where
  items : List FastPathEvent
  capacity : Nat
deriving DecidableEq, Repr

/-- EventQueue::enqueue — returns false when size_ has reached capacity_
without touching the queue, otherwise appends at the tail. -/
def EventQueue.enqueue (q : EventQueue) (event : FastPathEvent) :
    Bool × EventQueue :=
  if q.items.length ≥ q.capacity then
    (false, q)
  else
    (true, { q with items := q.items ++ [event] })

/-- EventQueue::dequeue — non-blocking removal from the head. -/
def EventQueue.dequeue (q : EventQueue) : Option FastPathEvent × EventQueue :=
  match q.items with
  | [] => (none, q)
  | event :: rest => (some event, { q with items := rest })

/-- EventQueue::size. -/
def EventQueue.size (q : EventQueue) : Nat := q.items.length

/-- Metrics snapshot (WatcherCore::Metrics); mean_latency_ms is never
updated by the source and is embedded as the constant it returns. -/
structure Metrics where
  events_received : Nat
  events_processed : Nat
  events_dropped : Nat
  callbacks_failed : Nat
  mean_latency_ms : Nat
  queue_depth : Nat
deriving DecidableEq, Repr

/-- The observable state of WatcherCoreImpl: lifecycle state, last error
message, output directory, the event queue, the registry
(unordered_map embedded as an association list keyed by variable id),
the running flag and the three atomic counters. -/
structure CoreState where
  state : State
  error_message : String
  output_dir : String
  event_queue : EventQueue
  variables_ : List (String × VariableMetadata)
  running : Bool
  events_received : Nat
  events_processed : Nat
  events_dropped : Nat
deriving DecidableEq, Repr

/-- A freshly constructed WatcherCoreImpl (the constructor initializer
list); event_queue_ is null before initialization, embedded as an empty
zero-capacity queue. -/
def emptyCore : CoreState :=
  { state := State.UNINITIALIZED
    error_message := ""
    output_dir := ""
    event_queue := { items := [], capacity := 0 }
    variables_ := []
    running := false
    events_received := 0
    events_processed := 0
    events_dropped := 0 }

/-- Lookup in the registry association list (unordered_map::find). -/
def lookupVar (vs : List (String × VariableMetadata)) (id : String) :
    Option VariableMetadata :=
  match vs with
  | [] => none
  | (k, v) :: rest => if k = id then some v else lookupVar rest id

/-- Insert-or-assign in the registry association list
(unordered_map::operator[] followed by assignment). -/
def setVar (vs : List (String × VariableMetadata)) (id : String)
    (m : VariableMetadata) : List (String × VariableMetadata) :=
  match vs with
  | [] => [(id, m)]
  | (k, v) :: rest =>
      if k = id then (id, m) :: rest else (k, v) :: setVar rest id m

/-- Erase from the registry association list (unordered_map::erase). -/
def eraseVar (vs : List (String × VariableMetadata)) (id : String) :
    List (String × VariableMetadata) :=
  match vs with
  | [] => []
  | (k, v) :: rest =>
      if k = id then rest else (k, v) :: eraseVar rest id

/-- WatcherCoreImpl::initialize.  The userfaultfd syscall outcome and the
UFFDIO_API ioctl outcome are the parameters uffd_ok and api_ok; errno_text
stands for the strerror suffix of the source message. -/
def coreInit (c : CoreState) (output_dir : String) (max_queue_size : Nat)
    (uffd_ok : Bool) (api_ok : Bool) (errno_text : String) :
    Bool × CoreState :=
  if c.state ≠ State.UNINITIALIZED then
    (false, { c with error_message := "Core already initialized" })
  else
    let c1 := { c with
      output_dir := output_dir
      event_queue := { items := [], capacity := max_queue_size } }
    if uffd_ok = false then
      (false, { c1 with
        error_message := "Failed to create userfaultfd: " ++ errno_text
        state := State.ERROR })
    else if api_ok = false then
      (false, { c1 with
        error_message := "Failed to configure userfaultfd: " ++ errno_text
        state := State.ERROR })
    else
      (true, { c1 with state := State.INITIALIZED })

/-- WatcherCoreImpl::registerPage.  The generated identifier, the
UFFDIO_REGISTER outcome, the mapped memory read by memcpy (a byte for
every address) and the clock value are the parameters fresh_id, arm_ok,
mem and now.  The source performs no alignment or length validation. -/
def registerPage (c : CoreState) (page_base : Nat) (page_size : Nat)
    (name : String) (flags : Nat) (mutation_depth : MutationDepth)
    (fresh_id : String) (arm_ok : Bool) (mem : Nat → Nat) (now : Nat) :
    String × CoreState :=
  if c.state = State.STOPPED ∨ c.state = State.ERROR then
    ("", c)
  else
    let variable_id := fresh_id
    if (c.state = State.RUNNING ∨ c.state = State.PAUSED) ∧ arm_ok = false then
      ("", c)
    else if page_base = 0 then
      ("", { c with error_message := "Cannot snapshot null page_base address" })
    else
      let snapshot := (List.range page_size).map (fun i => mem (page_base + i))
      let meta : VariableMetadata :=
        { variable_id := variable_id
          page_base := page_base
          page_size := page_size
          name := name
          flags := flags
          mutation_depth := mutation_depth
          initial_snapshot := snapshot
          registered_at := now }
      (variable_id, { c with variables_ := setVar c.variables_ variable_id meta })

/-- WatcherCoreImpl::unregisterPage (the kernel unregister is a no-op in
the source; only the registry entry is erased). -/
def unregisterPage (c : CoreState) (variable_id : String) :
    Bool × CoreState :=
  match lookupVar c.variables_ variable_id with
  | none => (false, c)
  | some _ => (true, { c with variables_ := eraseVar c.variables_ variable_id })

/-- WatcherCoreImpl::readSnapshot. -/
def readSnapshot (c : CoreState) (variable_id : String) : List Nat :=
  match lookupVar c.variables_ variable_id with
  | none => []
  | some m => m.initial_snapshot

/-- WatcherCoreImpl::writeSnapshot — replaces the stored pre-image with
the argument unconditionally once the id is found; no length check. -/
def writeSnapshot (c : CoreState) (variable_id : String)
    (snapshot : List Nat) : Bool × CoreState :=
  match lookupVar c.variables_ variable_id with
  | none => (false, c)
  | some m =>
      let m1 := { m with initial_snapshot := snapshot }
      (true, { c with variables_ := setVar c.variables_ variable_id m1 })

/-- WatcherCoreImpl::updateMetadata — stores the argument descriptor
wholesale under the looked-up key. -/
def updateMetadata (c : CoreState) (variable_id : String)
    (metadata : VariableMetadata) : Bool × CoreState :=
  match lookupVar c.variables_ variable_id with
  | none => (false, c)
  | some _ =>
      (true, { c with variables_ := setVar c.variables_ variable_id metadata })

/-- WatcherCoreImpl::start — fails with the message Core not initialized
unless the state is INITIALIZED; thread spawning is not observable. -/
def start (c : CoreState) : Bool × CoreState :=
  if c.state ≠ State.INITIALIZED then
    (false, { c with error_message := "Core not initialized" })
  else
    (true, { c with running := true, state := State.RUNNING })

/-- WatcherCoreImpl::pause. -/
def pause (c : CoreState) : Bool × CoreState :=
  if c.state ≠ State.RUNNING then
    (false, { c with error_message := "Core not running" })
  else
    (true, { c with state := State.PAUSED })

/-- WatcherCoreImpl::resume. -/
def resume (c : CoreState) : Bool × CoreState :=
  if c.state ≠ State.PAUSED then
    (false, { c with error_message := "Core not paused" })
  else
    (true, { c with state := State.RUNNING })

/-- WatcherCoreImpl::stop — in STOPPED, ERROR or UNINITIALIZED it returns
early with (state_ != ERROR) and changes nothing; otherwise it clears
running_ and moves to STOPPED.  The timeout only bounds thread joining,
which has no observable effect on this state. -/
def stop (c : CoreState) (timeout_ms : Nat) : Bool × CoreState :=
  if c.state = State.STOPPED ∨ c.state = State.ERROR ∨
      c.state = State.UNINITIALIZED then
    (if c.state = State.ERROR then false else true, c)
  else
    let _ := timeout_ms
    (true, { c with running := false, state := State.STOPPED })

/-- WatcherCoreImpl::getState. -/
def getState (c : CoreState) : State := c.state

/-- WatcherCoreImpl::getErrorMessage. -/
def getErrorMessage (c : CoreState) : String := c.error_message

/-- WatcherCoreImpl::getMetrics — callbacks_failed and mean_latency_ms
are the literal zeros the source returns. -/
def getMetrics (c : CoreState) : Metrics :=
  { events_received := c.events_received
    events_processed := c.events_processed
    events_dropped := c.events_dropped
    callbacks_failed := 0
    mean_latency_ms := 0
    queue_depth := c.event_queue.size }

/-- WatcherCoreImpl::dequeueEvent — the source body is the placeholder
return nullptr, embedded as the constant none. -/
def dequeueEvent (c : CoreState) : Option EnrichedEvent :=
  let _ := c
  none

/-- One raw fault record as drained by handlerLoop plus the outcomes of
the external effects performed while handling it: the instruction
pointer recovered from /proc (ip), the two UFFDIO_WRITEPROTECT ioctl
outcomes (unprotect_ok, reprotect_ok) and the clock-derived event id and
timestamp. -/
structure FaultRecord where
  address : Nat
  tid : Nat
  ip : Nat
  unprotect_ok : Bool
  reprotect_ok : Bool
  event_id : String
  ts_ns : Nat
deriving DecidableEq, Repr

/-- WatcherCoreImpl::handlePageFault.  The page base is the fault address
masked down to PAGE_SIZE; the event is enqueued (events_received on
success, events_dropped on queue-full); then the page is unprotected and
re-protected, each ioctl failure adding one more drop count, the first
one returning early.  The lifecycle state is never consulted. -/
def handlePageFault (c : CoreState) (r : FaultRecord) : CoreState :=
  let page_base := r.address - r.address % PAGE_SIZE
  let event : FastPathEvent :=
    { event_id := r.event_id
      ts_ns := r.ts_ns
      page_base := page_base
      fault_addr := r.address
      tid := r.tid
      ip := r.ip }
  let res := c.event_queue.enqueue event
  let c1 :=
    if res.1 then
      { c with event_queue := res.2,
               events_received := c.events_received + 1 }
    else
      { c with events_dropped := c.events_dropped + 1 }
  if r.unprotect_ok = false then
    { c1 with events_dropped := c1.events_dropped + 1 }
  else if r.reprotect_ok = false then
    { c1 with events_dropped := c1.events_dropped + 1 }
  else
    c1

/-- The fast-path handler applied to a finite batch of drained fault
records, as the loop body of handlerLoop does per message. -/
def handleFaults (c : CoreState) (recs : List FaultRecord) : CoreState :=
  recs.foldl handlePageFault c

/-- WatcherCoreImpl::slowPathLoop — the source body is a placeholder that
only sleeps; one iteration dequeues nothing and changes nothing. -/
def slowPathStep (c : CoreState) : CoreState := c

/-- A queue operation issued by one of the two queue clients. -/
inductive QOp where
  | enq : FastPathEvent → QOp
  | deq : QOp
deriving DecidableEq, Repr

/-- A finite interleaving of enqueue and dequeue calls on the queue. -/
def applyOps (q : EventQueue) : List QOp → EventQueue
  | [] => q
  | QOp.enq e :: rest => applyOps (q.enqueue e).2 rest
  | QOp.deq :: rest => applyOps q.dequeue.2 rest

-- ============================================================================
-- Shared lemmas
-- ============================================================================

theorem lookupVar_setVar (vs : List (String × VariableMetadata))
    (id : String) (m : VariableMetadata) :
    lookupVar (setVar vs id m) id = some m := by
  induction vs with
  | nil => simp [setVar, lookupVar]
  | cons kv rest ih =>
      obtain ⟨k, v⟩ := kv
      by_cases hk : k = id
      · simp [setVar, lookupVar, hk]
      · simp [setVar, lookupVar, hk, ih]

theorem enqueue_capacity_eq (q : EventQueue) (e : FastPathEvent) :
    ((q.enqueue e).2).capacity = q.capacity := by
  unfold EventQueue.enqueue
  split <;> rfl

theorem dequeue_capacity_eq (q : EventQueue) :
    (q.dequeue.2).capacity = q.capacity := by
  obtain ⟨items, cap⟩ := q
  cases items <;> rfl

theorem enqueue_preserves_bound (q : EventQueue) (e : FastPathEvent)
    (h : q.items.length ≤ q.capacity) :
    ((q.enqueue e).2).items.length ≤ ((q.enqueue e).2).capacity := by
  unfold EventQueue.enqueue
  split
  · simpa using h
  · next hfull =>
      simp only [List.length_append, List.length_cons, List.length_nil]
      omega

theorem dequeue_preserves_bound (q : EventQueue)
    (h : q.items.length ≤ q.capacity) :
    (q.dequeue.2).items.length ≤ (q.dequeue.2).capacity := by
  obtain ⟨items, cap⟩ := q
  cases items with
  | nil => simp [EventQueue.dequeue]
  | cons e rest =>
      simp only [EventQueue.dequeue] at h ⊢
      simp only [List.length_cons] at h
      omega

theorem applyOps_bound (ops : List QOp) :
    ∀ q : EventQueue, q.items.length ≤ q.capacity →
      (applyOps q ops).items.length ≤ (applyOps q ops).capacity := by
  induction ops with
  | nil => intro q h; simpa [applyOps] using h
  | cons op rest ih =>
      intro q h
      cases op with
      | enq e => exact ih (q.enqueue e).2 (enqueue_preserves_bound q e h)
      | deq => exact ih q.dequeue.2 (dequeue_preserves_bound q h)

theorem applyOps_capacity (ops : List QOp) :
    ∀ q : EventQueue, (applyOps q ops).capacity = q.capacity := by
  induction ops with
  | nil => intro q; rfl
  | cons op rest ih =>
      intro q
      cases op with
      | enq e => rw [show applyOps q (QOp.enq e :: rest) = applyOps (q.enqueue e).2 rest from rfl, ih, enqueue_capacity_eq]
      | deq => rw [show applyOps q (QOp.deq :: rest) = applyOps q.dequeue.2 rest from rfl, ih, dequeue_capacity_eq]

theorem handlePageFault_counter_sum (c : CoreState) (r : FaultRecord)
    (h1 : r.unprotect_ok = true) (h2 : r.reprotect_ok = true) :
    (handlePageFault c r).events_received + (handlePageFault c r).events_dropped
      = c.events_received + c.events_dropped + 1 := by
  unfold handlePageFault
  simp only [h1, h2, Bool.true_eq_false, if_false]
  split <;> simp <;> omega

theorem handleFaults_counter_sum (recs : List FaultRecord) :
    ∀ c : CoreState,
      (∀ r ∈ recs, r.unprotect_ok = true ∧ r.reprotect_ok = true) →
      (handleFaults c recs).events_received + (handleFaults c recs).events_dropped
        = c.events_received + c.events_dropped + recs.length := by
  induction recs with
  | nil => intro c h; simp [handleFaults]
  | cons r rest ih =>
      intro c h
      have hr := h r (List.mem_cons_self r rest)
      have hrest : ∀ x ∈ rest, x.unprotect_ok = true ∧ x.reprotect_ok = true :=
        fun x hx => h x (List.mem_cons_of_mem r hx)
      have hstep : handleFaults c (r :: rest) = handleFaults (handlePageFault c r) rest := rfl
      rw [hstep, ih (handlePageFault c r) hrest,
        handlePageFault_counter_sum c r hr.1 hr.2]
      simp only [List.length_cons]
      omega

-- ============================================================================
-- Concrete scenario states
-- ============================================================================

/-- The core after a successful initialize with queue capacity 16. -/
def initializedCore : CoreState :=
  (coreInit emptyCore "/tmp/x" 16 true true "").2

/-- The core after initialize and start. -/
def runningCore : CoreState := (start initializedCore).2

/-- The core after initialize, start and pause. -/
def pausedCore : CoreState := (pause runningCore).2

/-- The core after a failed initialize (userfaultfd creation refused). -/
def errorCore : CoreState :=
  (coreInit emptyCore "/tmp/x" 16 false true "boom").2

/-- A running core with one registered 4096-byte page of zeros. -/
def c1core0 : CoreState :=
  (registerPage runningCore 4096 4096 "v" 1
    { full_page := true, byte_range := 0 } "var-1" true (fun _ => 0) 0).2

/-- The fault record of a one-byte write at offset 128 into the page
registered in c1core0, with both resolveWrite ioctls succeeding. -/
def c1rec : FaultRecord :=
  { address := 4096 + 128, tid := 3, ip := 0, unprotect_ok := true,
    reprotect_ok := true, event_id := "evt-1", ts_ns := 1 }

/-- The core of c1core0 after the fast path handled that single fault. -/
def c1core : CoreState := handlePageFault c1core0 c1rec

/-- A fault record handled while the core is paused, ioctls succeeding. -/
def pausedRec : FaultRecord :=
  { address := 8192 + 128, tid := 3, ip := 0, unprotect_ok := true,
    reprotect_ok := true, event_id := "evt-2", ts_ns := 5 }

/-- A fault record whose unprotect ioctl fails. -/
def badRec : FaultRecord :=
  { address := 4096 + 128, tid := 7, ip := 0, unprotect_ok := false,
    reprotect_ok := true, event_id := "evt-3", ts_ns := 9 }

/-- An initialized core with one registered 4-byte page of zeros under the
id var-s (descriptor length 4). -/
def snapCore : CoreState :=
  (registerPage initializedCore 4096 4 "v" 1
    { full_page := true, byte_range := 0 } "var-s" true (fun _ => 0) 0).2

/-- A concrete fast-path event used to drive the queue. -/
def c1fpe : FastPathEvent :=
  { event_id := "evt-1", ts_ns := 1, page_base := 4096, fault_addr := 4224,
    tid := 3, ip := 0 }

/-- A queue at capacity: one slot, one stored event. -/
def fullQueue : EventQueue := { items := [c1fpe], capacity := 1 }

/-- A running core whose event queue is at capacity. -/
def fullCore : CoreState := { runningCore with event_queue := fullQueue }

/-- The descriptor that registerPage stored in snapCore under var-s. -/
def snapMeta : VariableMetadata :=
  { variable_id := "var-s", page_base := 4096, page_size := 4, name := "v",
    flags := 1, mutation_depth := { full_page := true, byte_range := 0 },
    initial_snapshot := [0, 0, 0, 0], registered_at := 0 }

/-- A replacement descriptor whose variable id and registration time
differ from the entry stored in snapCore. -/
def newMeta : VariableMetadata :=
  { variable_id := "other", page_base := 8192, page_size := 4, name := "w",
    flags := 0, mutation_depth := { full_page := false, byte_range := 2 },
    initial_snapshot := [1, 2, 3, 4], registered_at := 99 }

-- ============================================================================
-- Claims
-- ============================================================================

/-- C1: even with the core RUNNING, one registered page of zeros and the
single-byte write fault at offset 128 already handled by the fast path
(events_received = 1), dequeueEvent never returns an EnrichedEvent: the
source body is the placeholder that returns nullptr for every core state,
so no enriched event with deltas [(128, [0x00], [0xFF])] is ever
observable. -/
theorem c1_dequeue_placeholder :
    (∀ c : CoreState, dequeueEvent c = none)
    ∧ getState c1core = State.RUNNING
    ∧ c1core.events_received = 1
    ∧ dequeueEvent c1core = none :=
  ⟨fun _ => rfl, rfl, rfl, rfl⟩

/-- C2: with the core PAUSED, the fast-path handler still enqueues a
drained fault record into the event queue and counts it in
events_received; no record is counted as dropped and no dropped-by-pause
counter exists in the code, contradicting the claim that PAUSED faults
are drained without enqueuing. -/
theorem c2_paused_enqueues :
    getState pausedCore = State.PAUSED
    ∧ (handlePageFault pausedCore pausedRec).event_queue.items.length
        = pausedCore.event_queue.items.length + 1
    ∧ (handlePageFault pausedCore pausedRec).events_received = 1
    ∧ (handlePageFault pausedCore pausedRec).events_dropped = 0 :=
  ⟨rfl, rfl, rfl, rfl⟩

/-- C3 counterexample: one fault record whose unprotect ioctl fails is
counted both in events_received (the enqueue succeeded) and in
events_dropped (the ioctl failure path), so after one delivered record
the sum of the two counters is 2, not 1 as the claim requires. -/
theorem c3_counterexample :
    [badRec].length = 1
    ∧ (handleFaults runningCore [badRec]).events_received
        + (handleFaults runningCore [badRec]).events_dropped = 2 :=
  ⟨rfl, rfl⟩

/-- C3 amended: when every resolveWrite ioctl (unprotect and re-protect)
succeeds, handling a finite batch of fault records raises
events_received plus events_dropped by exactly the number of records
(each ioctl failure would add one further drop count); and the
enrichment worker of the source is a placeholder that dequeues nothing,
so the events it dequeues (zero) never exceed events_received. -/
theorem c3_metrics_amended (c : CoreState) (recs : List FaultRecord)
    (h : ∀ r ∈ recs, r.unprotect_ok = true ∧ r.reprotect_ok = true) :
    (handleFaults c recs).events_received + (handleFaults c recs).events_dropped
      = c.events_received + c.events_dropped + recs.length
    ∧ slowPathStep (handleFaults c recs) = handleFaults c recs :=
  ⟨handleFaults_counter_sum recs c h, rfl⟩

/-- C3 witness: the amended metrics law evaluated on the running core and
two concrete fault records with succeeding ioctls. -/
theorem c3_metrics_amended_witness :
    (handleFaults runningCore [c1rec, pausedRec]).events_received
      + (handleFaults runningCore [c1rec, pausedRec]).events_dropped
      = runningCore.events_received + runningCore.events_dropped + [c1rec, pausedRec].length
    ∧ slowPathStep (handleFaults runningCore [c1rec, pausedRec])
        = handleFaults runningCore [c1rec, pausedRec] :=
  c3_metrics_amended runningCore [c1rec, pausedRec] (by decide)

/-- C4: for every sequence of enqueue and dequeue operations starting
from the empty queue created at initialize time, the depth never exceeds
the fixed capacity; an enqueue attempted at capacity returns false and
leaves the queue untouched; and when the fast-path handler meets a full
queue (ioctls succeeding), events_dropped rises by one for that attempt
while events_received and the queue are unchanged. -/
theorem c4_queue_bound (cap : Nat) (ops : List QOp) (q : EventQueue)
    (e : FastPathEvent) (c : CoreState) (r : FaultRecord)
    (hq : q.items.length = q.capacity)
    (hc : c.event_queue.items.length = c.event_queue.capacity)
    (hu : r.unprotect_ok = true) (hp : r.reprotect_ok = true) :
    (applyOps { items := [], capacity := cap } ops).items.length ≤ cap
    ∧ q.enqueue e = (false, q)
    ∧ (handlePageFault c r).events_dropped = c.events_dropped + 1
    ∧ (handlePageFault c r).events_received = c.events_received
    ∧ (handlePageFault c r).event_queue = c.event_queue := by
  refine ⟨?_, ?_, ?_, ?_, ?_⟩
  · have hb := applyOps_bound ops { items := [], capacity := cap } (by simp)
    have hcap := applyOps_capacity ops { items := [], capacity := cap }
    rw [hcap] at hb
    exact hb
  · unfold EventQueue.enqueue
    rw [if_pos (le_of_eq hq.symm)]
  · simp [handlePageFault, EventQueue.enqueue, hu, hp, hc]
  · simp [handlePageFault, EventQueue.enqueue, hu, hp, hc]
  · simp [handlePageFault, EventQueue.enqueue, hu, hp, hc]

/-- C4 witness: the bound, the rejected enqueue and the drop count
evaluated on a capacity-2 queue driven past capacity and on a core whose
queue is full. -/
theorem c4_queue_bound_witness :
    (applyOps { items := [], capacity := 2 }
        [QOp.enq c1fpe, QOp.enq c1fpe, QOp.enq c1fpe, QOp.deq]).items.length ≤ 2
    ∧ fullQueue.enqueue c1fpe = (false, fullQueue)
    ∧ (handlePageFault fullCore c1rec).events_dropped = fullCore.events_dropped + 1
    ∧ (handlePageFault fullCore c1rec).events_received = fullCore.events_received
    ∧ (handlePageFault fullCore c1rec).event_queue = fullCore.event_queue :=
  c4_queue_bound 2 [QOp.enq c1fpe, QOp.enq c1fpe, QOp.enq c1fpe, QOp.deq]
    fullQueue c1fpe fullCore c1rec rfl rfl rfl rfl

/-- C5 counterexample: registerPage on the initialized core with the
unaligned base address 1 and length 0 (both rejection conditions of the
claim hold) still returns the fresh id and inserts a descriptor into the
registry, so the claimed validation does not exist in the code. -/
theorem c5_counterexample :
    1 % PAGE_SIZE ≠ 0
    ∧ (registerPage initializedCore 1 0 "v" 0
        { full_page := true, byte_range := 0 } "var-u" true (fun _ => 0) 0).1
        = "var-u"
    ∧ lookupVar (registerPage initializedCore 1 0 "v" 0
        { full_page := true, byte_range := 0 } "var-u" true (fun _ => 0) 0).2.variables_
        "var-u"
      = some { variable_id := "var-u", page_base := 1, page_size := 0,
               name := "v", flags := 0,
               mutation_depth := { full_page := true, byte_range := 0 },
               initial_snapshot := [], registered_at := 0 } :=
  ⟨by decide, rfl, rfl⟩

/-- C5 amended: registerPage performs no alignment or length validation;
whenever the state is neither STOPPED nor ERROR, the base is non-null
and arming succeeds in the states that arm, the call returns the fresh
id and inserts the descriptor — even for an unaligned base or a zero or
non-page-multiple length.  The empty-id error return happens only in the
STOPPED/ERROR, null-base and arming-failure cases. -/
theorem c5_register_no_validation (c : CoreState) (base len : Nat)
    (name : String) (flags : Nat) (md : MutationDepth) (fid : String)
    (arm_ok : Bool) (mem : Nat → Nat) (now : Nat)
    (h1 : c.state ≠ State.STOPPED) (h2 : c.state ≠ State.ERROR)
    (h3 : base ≠ 0)
    (h4 : c.state = State.RUNNING ∨ c.state = State.PAUSED → arm_ok = true) :
    (registerPage c base len name flags md fid arm_ok mem now).1 = fid
    ∧ lookupVar (registerPage c base len name flags md fid arm_ok mem now).2.variables_ fid
      = some { variable_id := fid, page_base := base, page_size := len,
               name := name, flags := flags, mutation_depth := md,
               initial_snapshot := (List.range len).map (fun i => mem (base + i)),
               registered_at := now } := by
  have harm : ¬ ((c.state = State.RUNNING ∨ c.state = State.PAUSED) ∧ arm_ok = false) := by
    rintro ⟨hs, hfalse⟩
    rw [h4 hs] at hfalse
    exact Bool.true_eq_false.mp hfalse
  unfold registerPage
  rw [if_neg (by simp [h1, h2]), if_neg harm, if_neg h3]
  exact ⟨rfl, lookupVar_setVar c.variables_ fid _⟩

/-- C5 witness: the amended behaviour evaluated at the unaligned base 1
with the non-multiple length 3 on the initialized core. -/
theorem c5_register_no_validation_witness :
    (registerPage initializedCore 1 3 "v" 0
        { full_page := true, byte_range := 0 } "var-u" true (fun _ => 7) 0).1
      = "var-u"
    ∧ lookupVar (registerPage initializedCore 1 3 "v" 0
        { full_page := true, byte_range := 0 } "var-u" true (fun _ => 7) 0).2.variables_
        "var-u"
      = some { variable_id := "var-u", page_base := 1, page_size := 3,
               name := "v", flags := 0,
               mutation_depth := { full_page := true, byte_range := 0 },
               initial_snapshot := (List.range 3).map (fun i => (fun _ => 7) (1 + i)),
               registered_at := 0 } :=
  c5_register_no_validation initializedCore 1 3 "v" 0
    { full_page := true, byte_range := 0 } "var-u" true (fun _ => 7) 0
    (by decide) (by decide) (by decide) (by intro h; rfl)

/-- C6 counterexample: the descriptor stored under var-s has a length-4
pre-image, yet writeSnapshot with a 2-byte sequence returns true and
replaces the stored pre-image, so a length mismatch neither fails nor
leaves the pre-image unchanged. -/
theorem c6_counterexample :
    (readSnapshot snapCore "var-s").length = 4
    ∧ ([65, 65] : List Nat).length = 2
    ∧ (writeSnapshot snapCore "var-s" [65, 65]).1 = true
    ∧ readSnapshot (writeSnapshot snapCore "var-s" [65, 65]).2 "var-s" = [65, 65] :=
  ⟨rfl, rfl, rfl, rfl⟩

/-- C6 amended: writeSnapshot performs no length validation: for every
registered variable id it succeeds with a byte sequence of any length,
replacing the stored pre-image wholesale; it fails only when the id is
unknown, and then the core is unchanged. -/
theorem c6_write_any_length (c : CoreState) (id : String) (bytes : List Nat)
    (m : VariableMetadata)
    (h : lookupVar c.variables_ id = some m) :
    (writeSnapshot c id bytes).1 = true
    ∧ lookupVar (writeSnapshot c id bytes).2.variables_ id
        = some { m with initial_snapshot := bytes }
    ∧ (∀ id2, lookupVar c.variables_ id2 = none → writeSnapshot c id2 bytes = (false, c)) := by
  refine ⟨?_, ?_, ?_⟩
  · simp [writeSnapshot, h]
  · simp [writeSnapshot, h, lookupVar_setVar]
  · intro id2 h2
    simp [writeSnapshot, h2]

/-- C6 witness: a 2-byte write into the length-4 descriptor of snapCore
succeeds and is stored. -/
theorem c6_write_any_length_witness :
    (writeSnapshot snapCore "var-s" [65, 65]).1 = true
    ∧ lookupVar (writeSnapshot snapCore "var-s" [65, 65]).2.variables_ "var-s"
        = some { snapMeta with initial_snapshot := [65, 65] }
    ∧ (∀ id2, lookupVar snapCore.variables_ id2 = none →
        writeSnapshot snapCore id2 [65, 65] = (false, snapCore)) :=
  c6_write_any_length snapCore "var-s" [65, 65] snapMeta rfl

/-- C7 counterexample: the entry stored under var-s originally carries
variable id var-s and registration time 0; updateMetadata with a
descriptor carrying id other and time 99 returns true and stores that
descriptor unchanged, so neither the original variable id nor the
original timestamp is preserved in the stored entry. -/
theorem c7_counterexample :
    (lookupVar snapCore.variables_ "var-s").map VariableMetadata.variable_id
      = some "var-s"
    ∧ (lookupVar snapCore.variables_ "var-s").map VariableMetadata.registered_at
      = some 0
    ∧ (updateMetadata snapCore "var-s" newMeta).1 = true
    ∧ (lookupVar (updateMetadata snapCore "var-s" newMeta).2.variables_ "var-s").map
        VariableMetadata.variable_id = some "other"
    ∧ (lookupVar (updateMetadata snapCore "var-s" newMeta).2.variables_ "var-s").map
        VariableMetadata.registered_at = some 99 :=
  ⟨rfl, rfl, rfl, rfl, rfl⟩

/-- C7 amended: a successful updateMetadata replaces the stored
descriptor wholesale with the argument, including the variable-id and
registered-at fields of the argument; only the registry key under which
the entry is stored remains the original id. -/
theorem c7_update_wholesale (c : CoreState) (id : String)
    (metadata m : VariableMetadata)
    (h : lookupVar c.variables_ id = some m) :
    (updateMetadata c id metadata).1 = true
    ∧ lookupVar (updateMetadata c id metadata).2.variables_ id = some metadata := by
  constructor
  · simp [updateMetadata, h]
  · simp [updateMetadata, h, lookupVar_setVar]

/-- C7 witness: the wholesale replacement evaluated on snapCore with the
descriptor newMeta whose id and timestamp differ from the original. -/
theorem c7_update_wholesale_witness :
    (updateMetadata snapCore "var-s" newMeta).1 = true
    ∧ lookupVar (updateMetadata snapCore "var-s" newMeta).2.variables_ "var-s"
        = some newMeta :=
  c7_update_wholesale snapCore "var-s" newMeta snapMeta rfl

/-- C8: whenever a writeSnapshot call is accepted (returns true), a
readSnapshot on the same id against the resulting core returns exactly
the bytes that were written. -/
theorem c8_snapshot_round_trip (c : CoreState) (id : String)
    (bytes : List Nat)
    (h : (writeSnapshot c id bytes).1 = true) :
    readSnapshot (writeSnapshot c id bytes).2 id = bytes := by
  unfold writeSnapshot at h ⊢
  cases hl : lookupVar c.variables_ id with
  | none =>
      rw [hl] at h
      exact absurd h (by simp)
  | some m =>
      simp [readSnapshot, lookupVar_setVar]

/-- C8 witness: the round trip evaluated on snapCore with a concrete
3-byte sequence. -/
theorem c8_snapshot_round_trip_witness :
    readSnapshot (writeSnapshot snapCore "var-s" [9, 8, 7]).2 "var-s" = [9, 8, 7] :=
  c8_snapshot_round_trip snapCore "var-s" [9, 8, 7] rfl

/-- C9: calling start while the core state is UNINITIALIZED returns
false, leaves the observable state UNINITIALIZED, and sets the error
message to a string containing the text: not initialized. -/
theorem c9_start_uninitialized (c : CoreState)
    (h : c.state = State.UNINITIALIZED) :
    (start c).1 = false
    ∧ getState (start c).2 = State.UNINITIALIZED
    ∧ ∃ before after, getErrorMessage (start c).2
        = before ++ "not initialized" ++ after := by
  have hne : c.state ≠ State.INITIALIZED := by rw [h]; intro hx; cases hx
  refine ⟨?_, ?_, "Core ", "", ?_⟩
  · simp [start, hne]
  · simp [start, getState, hne, h]
  · simp [start, getErrorMessage, hne]

/-- C9 witness: start on the freshly constructed core. -/
theorem c9_start_uninitialized_witness :
    (start emptyCore).1 = false
    ∧ getState (start emptyCore).2 = State.UNINITIALIZED
    ∧ ∃ before after, getErrorMessage (start emptyCore).2
        = before ++ "not initialized" ++ after :=
  c9_start_uninitialized emptyCore rfl

/-- C10: stop on a core in UNINITIALIZED returns true and changes
nothing, so the state stays UNINITIALIZED and never moves to STOPPED,
while stop on a core in ERROR returns false. -/
theorem c10_stop_uninitialized (c1 c2 : CoreState) (t1 t2 : Nat)
    (h1 : c1.state = State.UNINITIALIZED) (h2 : c2.state = State.ERROR) :
    stop c1 t1 = (true, c1)
    ∧ getState (stop c1 t1).2 = State.UNINITIALIZED
    ∧ (stop c2 t2).1 = false := by
  refine ⟨?_, ?_, ?_⟩
  · simp [stop, h1]
  · simp [stop, getState, h1]
  · simp [stop, h2]

/-- C10 witness: stop evaluated on the freshly constructed core and on
the core whose initialize failed. -/
theorem c10_stop_uninitialized_witness :
    stop emptyCore 5000 = (true, emptyCore)
    ∧ getState (stop emptyCore 5000).2 = State.UNINITIALIZED
    ∧ (stop errorCore 5000).1 = false :=
  c10_stop_uninitialized emptyCore errorCore 5000 5000 rfl rfl

end Watcher
